import Mathlib

/-!
Verification development for the daily-report aggregator
(`src/services/reportService.js` and the standalone script / second
service copy in `src/unnamed/part_000`).

The JavaScript code is shallowly embedded as follows.

* A spreadsheet cell is `Cell`: absent (`undefined` in a fetched row),
  a string, or a numeric value.  Numeric cells are modelled with integer
  values, which covers every numeric-cell behaviour the code exercises
  (truthiness, `toString`, strict equality against a string).
* JavaScript numbers produced by `parseFloat` are modelled as
  `JSNum := Option ℚ`, where `none` stands for `NaN` (which absorbs
  under addition) and `some q` is a finite value.  IEEE-754 rounding is
  not modelled; the code only adds parsed values, and every claim is
  about which values are added, not about rounding.
* `parseFloat(s.replace(/[^\d.-]/g, ''))` is modelled by
  `parseFloatJS (stripNonNum s)`: the stripped string contains only
  digits, `'.'` and `'-'`, and on that alphabet `parseFloat` accepts an
  optional leading `'-'`, then digits with an optional single fraction
  part, reading the longest valid prefix; it is `NaN` when no digit was
  read.
* String methods `trim`, `toLowerCase`, `toUpperCase`, `includes` are
  modelled over `String.data`; case mapping is ASCII, which covers every
  literal the code compares against.
-/

/-- A raw spreadsheet cell as seen by the JavaScript code: `undefined`
(absent), a string, or a number (modelled with an integer value). -/
inductive Cell where
  | absent
  | str (s : String)
  | num (n : Int)
deriving DecidableEq, Repr

/-- JavaScript truthiness of a cell: `undefined`, `""` and `0` are falsy. -/
def Cell.truthy : Cell → Bool
  | .absent => false
  | .str s => s != ""
  | .num n => n != 0

/-- JavaScript `toString()` of a cell.  The code only calls it on truthy
cells, so the `absent` case is never exercised. -/
def Cell.toStr : Cell → String
  | .absent => ""
  | .str s => s
  | .num n => toString n

/-- A fetched grid row: an ordered list of cells. -/
abbrev Row := List Cell

/-- `row[i]` with JavaScript semantics: reading past the end gives
`undefined`. -/
def cellAt (r : Row) (i : Nat) : Cell := r.getD i Cell.absent

/-- Whitespace characters removed by `String.prototype.trim` (the ASCII
subset, which covers the cell contents the code handles). -/
def isWSChar (c : Char) : Bool :=
  c == ' ' || c == '\t' || c == '\n' || c == '\r'

/-- JavaScript `s.trim()`. -/
def strTrim (s : String) : String :=
  ⟨((s.data.dropWhile isWSChar).reverse.dropWhile isWSChar).reverse⟩

/-- JavaScript `s.toLowerCase()` (ASCII). -/
def lowerStr (s : String) : String := ⟨s.data.map Char.toLower⟩

/-- JavaScript `s.toUpperCase()` (ASCII). -/
def upperStr (s : String) : String := ⟨s.data.map Char.toUpper⟩

/-- Whether `needle` is a prefix of `hay` (character lists). -/
def startsWithL : List Char → List Char → Bool
  | [], _ => true
  | _ :: _, [] => false
  | a :: as, b :: bs => (a == b) && startsWithL as bs

/-- Whether `needle` occurs contiguously inside `hay` (character lists). -/
def containsL (needle : List Char) : List Char → Bool
  | [] => startsWithL needle []
  | h :: t => startsWithL needle (h :: t) || containsL needle t

/-- JavaScript `s.includes(sub)`. -/
def containsS (s sub : String) : Bool := containsL sub.data s.data

/-- `s.replace(/[^\d.-]/g, '')`: keep only digits, `'.'` and `'-'`. -/
def stripNonNum (s : String) : String :=
  ⟨s.data.filter (fun c => c.isDigit || c == '.' || c == '-')⟩

/-- Value of a digit run, most significant first. -/
def digitsVal (cs : List Char) : Nat :=
  cs.foldl (fun a c => a * 10 + (c.toNat - '0'.toNat)) 0

/-- A JavaScript number: `none` is `NaN`, `some q` a finite value. -/
abbrev JSNum := Option ℚ

/-- JavaScript `parseFloat` restricted to strings over `{digits, '.', '-'}`
(the image of `stripNonNum`): longest valid numeric prefix, `NaN` when no
digit is read. -/
def parseFloatJS (s : String) : JSNum :=
  let cs := s.data
  let neg := match cs with | '-' :: _ => true | _ => false
  let cs1 := match cs with | '-' :: rest => rest | _ => cs
  let ip := cs1.takeWhile Char.isDigit
  let rest := cs1.dropWhile Char.isDigit
  let fp := match rest with | '.' :: r => r.takeWhile Char.isDigit | _ => []
  if ip.isEmpty && fp.isEmpty then none
  else
    let numVal : Int := Int.ofNat (digitsVal ip * 10 ^ fp.length + digitsVal fp)
    some (mkRat (if neg then -numVal else numVal) (10 ^ fp.length))

/-- Rational addition written with `mkRat` so that it evaluates by kernel
reduction (`Rat.add` is irreducible); equal to `· + ·` by `Rat.add_def'`. -/
def ratAdd (a b : ℚ) : ℚ :=
  mkRat (a.num * b.den + b.num * a.den) (a.den * b.den)

/-- JavaScript `+` on numbers: `NaN` absorbs. -/
def jsAdd : JSNum → JSNum → JSNum
  | some a, some b => some (ratAdd a b)
  | _, _ => none

/-- Sum of a list of JavaScript numbers starting from `0`. -/
def jsSum (l : List JSNum) : JSNum := l.foldl jsAdd (some 0)

/-- The coercion pattern `cell ? parseFloat(cell.toString().replace(/[^\d.-]/g, '')) : 0`
used for every payment / weight cell. -/
def numOr (c : Cell) : JSNum :=
  if c.truthy then parseFloatJS (stripNonNum c.toStr) else some 0

/-- JavaScript `x || 0` applied to a number: `NaN` (and `0`) become `0`. -/
def jsOrZero : JSNum → JSNum
  | none => some 0
  | some q => some q

/-- `s.padStart(2, '0')`. -/
def padTwo (s : String) : String :=
  ⟨List.replicate (2 - s.length) '0' ++ s.data⟩

/-- `targetDate.getDate().toString().padStart(2, '0')` for day-of-month `d`. -/
def padDayStr (d : Nat) : String := padTwo (Nat.repr d)

/-- The splitter's non-empty-date test:
`dateValue && dateValue.toString && dateValue.toString().trim() !== ''`. -/
def labelish (c : Cell) : Bool := c.truthy && (strTrim c.toStr != "")

/-- JavaScript strict equality `cell === target` between a cell and a
string: true exactly when the cell is that string. -/
def cellSEqStr (c : Cell) (t : String) : Bool :=
  match c with
  | .str s => s == t
  | _ => false

/-- One transition of the day-segment state machine: a labelled row sets
the state to whether its label strictly equals the target day; an
unlabelled row leaves the state unchanged. -/
def segStep (t : String) (st : Bool) (c : Cell) : Bool :=
  if labelish c then cellSEqStr c t else st

/-- The day-segment splitter (`cargoData.forEach` / `expressData.forEach`
collection loop): scan rows with the `segStep` state machine, collecting
each row (with its index) while the state says we are inside the target
day's section.  `idx` is the date column offset (1 for cargo, 0 for
express). -/
def collectSeg (idx : Nat) (t : String) : Nat → Bool → List Row → List (Nat × Row)
  | _, _, [] => []
  | n, st, r :: rs =>
    if segStep t st (cellAt r idx) then
      (n, r) :: collectSeg idx t (n + 1) (segStep t st (cellAt r idx)) rs
    else
      collectSeg idx t (n + 1) (segStep t st (cellAt r idx)) rs

/-- Row indices collected by the splitter for a target day. -/
def segIndices (idx : Nat) (t : String) (grid : List Row) : List Nat :=
  (collectSeg idx t 0 false grid).map (·.1)

/-! ### Section boundary locator (`getCargoData` / `getExpressData` /
`generateDailyReport` preamble): scan column B from row 13 for the first
cell containing `PENGELUARAN` (case-insensitively); the end row is the
row just before it, or a fallback bound when the marker is absent
(300 in `reportService.js`, 200 in the standalone script). -/

/-- Whether a search row's first cell contains the section marker:
`cellValue && cellValue.toString().toUpperCase().includes('PENGELUARAN')`. -/
def hasMarkerRow (r : Row) : Bool :=
  (cellAt r 0).truthy && containsS (upperStr (cellAt r 0).toStr) "PENGELUARAN"

/-- Scan loop of the locator; `n` is the 0-based offset from row 13. -/
def findEndRowAux (fb : Nat) : Nat → List Row → Nat
  | _, [] => fb
  | n, r :: rs => if hasMarkerRow r then 13 + n - 1 else findEndRowAux fb (n + 1) rs

/-- `endRow` computed from the `B13:B300` search data, with fallback `fb`. -/
def findEndRow (rows : List Row) (fb : Nat) : Nat := findEndRowAux fb 0 rows

/-! ### Cargo table (`getCargoData`, `src/services/reportService.js`) -/

/-- Row filter applied to each collected cargo row:
`awb && awb.toString().trim() !== '' && awb.toString().toLowerCase() !== 'total'`. -/
def cargoGuard (awb : Cell) : Bool :=
  awb.truthy && (strTrim awb.toStr != "") && (lowerStr awb.toStr != "total")

/-- Online (marketplace) identifier test:
`awbString.includes('tiktok') || awbString.includes('shopee') || awbString.includes('api')`
on the lowercased identifier. -/
def isOnlineAWB (s : String) : Bool :=
  containsS (lowerStr s) "tiktok" || containsS (lowerStr s) "shopee" ||
    containsS (lowerStr s) "api"

/-- Regular-identifier test: `awb.toString().match(/^\d{10,}$/)` —
the whole identifier is a run of at least 10 digits. -/
def isRegularAWB (s : String) : Bool :=
  decide (10 ≤ s.data.length) && s.data.all Char.isDigit

/-- Running cargo totals. -/
structure CargoAcc where
  totalAWB : Nat
  totalKg : JSNum
  totalOnlineKg : JSNum
  onlineAWBs : List String
  totalTunai : JSNum
  totalTfMandiri : JSNum
  totalTfBca : JSNum
  totalDfod : JSNum
  totalPacking : JSNum
deriving DecidableEq, Repr

/-- Initial cargo totals (every sum 0, no online identifiers). -/
def cargoAccInit : CargoAcc := ⟨0, some 0, some 0, [], some 0, some 0, some 0, some 0, some 0⟩

/-- One iteration of the cargo totals loop (`todayCargoRows.forEach`),
column offsets as in the source: awb = 3, kg = 7, tunai = 8,
tfMandiriK = 10, tfMandiriL = 11, tfBca = 12, dfod = 14, packing = 15. -/
def cargoStep (acc : CargoAcc) (r : Row) : CargoAcc :=
  let awb := cellAt r 3
  if cargoGuard awb then
    let kgValue := numOr (cellAt r 7)
    let acc1 : CargoAcc :=
      { acc with
        totalTunai := jsAdd acc.totalTunai (numOr (cellAt r 8))
        totalTfMandiri :=
          jsAdd acc.totalTfMandiri (jsAdd (numOr (cellAt r 10)) (numOr (cellAt r 11)))
        totalTfBca := jsAdd acc.totalTfBca (numOr (cellAt r 12))
        totalDfod := jsAdd acc.totalDfod (numOr (cellAt r 14))
        totalPacking := jsAdd acc.totalPacking (numOr (cellAt r 15)) }
    if isOnlineAWB awb.toStr then
      { acc1 with
        onlineAWBs := acc1.onlineAWBs ++ [awb.toStr]
        totalOnlineKg := jsAdd acc1.totalOnlineKg kgValue }
    else if isRegularAWB awb.toStr then
      { acc1 with totalAWB := acc1.totalAWB + 1, totalKg := jsAdd acc1.totalKg kgValue }
    else acc1
  else acc

/-- The cargo aggregate returned to the caller. -/
structure CargoResult where
  totalAWB : Nat
  totalAWBOnline : String
  totalTonase : JSNum
  totalTonaseOnline : JSNum
  totalTunai : JSNum
  totalTfMandiri : JSNum
  totalTfBca : JSNum
  totalDfod : JSNum
  totalPacking : JSNum
deriving DecidableEq, Repr

/-- `getCargoData` after the fetches: split out the target day's segment
(date column 1), fold the totals loop over it, and package the result.
`d` is `targetDate.getDate()`. -/
def getCargoData (grid : List Row) (d : Nat) : CargoResult :=
  let todayDay := padDayStr d
  let seg := (collectSeg 1 todayDay 0 false grid).map (·.2)
  let acc := seg.foldl cargoStep cargoAccInit
  { totalAWB := acc.totalAWB
    totalAWBOnline :=
      if acc.onlineAWBs.length > 0 then String.intercalate " " acc.onlineAWBs else "TBD"
    totalTonase := acc.totalKg
    totalTonaseOnline := acc.totalOnlineKg
    totalTunai := acc.totalTunai
    totalTfMandiri := acc.totalTfMandiri
    totalTfBca := acc.totalTfBca
    totalDfod := acc.totalDfod
    totalPacking := acc.totalPacking }

/-! ### Express table (`getExpressData`, `src/services/reportService.js`) -/

/-- `TOTAL`-in-any-column test: some cell of the row is truthy and its
lowercased text contains `'total'`. -/
def rowHasTotal (r : Row) : Bool :=
  r.any (fun c => c.truthy && containsS (lowerStr c.toStr) "total")

/-- `tunai || mandiri || bca || packing`: at least one of the four
payment cells (offsets 7, 9, 11, 13) is truthy. -/
def truthy4 (r : Row) : Bool :=
  (cellAt r 7).truthy || (cellAt r 9).truthy || (cellAt r 11).truthy ||
    (cellAt r 13).truthy

/-- Predicate for rows the express loop pushes: no `'total'` anywhere
and at least one truthy payment cell. -/
def expressKept (r : Row) : Bool := !rowHasTotal r && truthy4 r

/-- The express collection loop (`expressData.forEach`): same day-segment
state machine on date column 0, but rows are pushed only after the
`'total'` filter and the any-payment test. -/
def expressCollect (t : String) : Bool → List Row → List Row
  | _, [] => []
  | st, r :: rs =>
    if segStep t st (cellAt r 0) then
      if rowHasTotal r then expressCollect t (segStep t st (cellAt r 0)) rs
      else if truthy4 r then r :: expressCollect t (segStep t st (cellAt r 0)) rs
      else expressCollect t (segStep t st (cellAt r 0)) rs
    else expressCollect t (segStep t st (cellAt r 0)) rs

/-- Running express payment sums. -/
structure ExpressAcc where
  tunai : JSNum
  mandiri : JSNum
  bca : JSNum
  packing : JSNum
deriving DecidableEq, Repr

/-- One iteration of the express totals loop (`todayExpressRows.forEach`). -/
def expressAccStep (acc : ExpressAcc) (r : Row) : ExpressAcc :=
  ⟨jsAdd acc.tunai (numOr (cellAt r 7)), jsAdd acc.mandiri (numOr (cellAt r 9)),
    jsAdd acc.bca (numOr (cellAt r 11)), jsAdd acc.packing (numOr (cellAt r 13))⟩

/-- The express aggregate returned to the caller. -/
structure ExpressResult where
  totalAWBExpress : Nat
  totalTunaiExpress : JSNum
  totalTfMandiriExpress : JSNum
  totalTfBcaExpress : JSNum
  totalPackingExpress : JSNum
deriving DecidableEq, Repr

/-- `getExpressData` after the fetches. -/
def getExpressData (grid : List Row) (d : Nat) : ExpressResult :=
  let todayDay := padDayStr d
  let rows := expressCollect todayDay false grid
  let acc := rows.foldl expressAccStep ⟨some 0, some 0, some 0, some 0⟩
  ⟨rows.length, acc.tunai, acc.mandiri, acc.bca, acc.packing⟩

/-! ### Expense table (`getPengeluaranData`, `src/services/reportService.js`) -/

/-- Expense day match: the date cell is truthy and its text equals the
unpadded or the zero-padded day string (direct equality, no trim). -/
def pengDayMatch (d : Nat) (c : Cell) : Bool :=
  c.truthy && ((c.toStr == Nat.repr d) || (c.toStr == padTwo (Nat.repr d)))

/-- The expense result returned to the caller. -/
structure PengeluaranResult where
  totalPengeluaran : JSNum
  itemsWithoutPrice : List String
deriving DecidableEq, Repr

/-- One iteration of the expense loop (`pengeluaranData.forEach`),
column offsets: date = 0, description = 2, amount = 11. -/
def pengeluaranStep (d : Nat) (acc : JSNum × List String) (r : Row) : JSNum × List String :=
  if pengDayMatch d (cellAt r 0) then
    if (cellAt r 2).truthy && (strTrim (cellAt r 2).toStr != "") then
      if (cellAt r 11).truthy && (strTrim (cellAt r 11).toStr != "") then
        (jsAdd acc.1 (parseFloatJS (stripNonNum (cellAt r 11).toStr)), acc.2)
      else
        (acc.1, acc.2 ++ [strTrim (cellAt r 2).toStr])
    else acc
  else acc

/-- `getPengeluaranData` after the fetch; `d` is `targetDate.getDate()`. -/
def getPengeluaranData (grid : List Row) (d : Nat) : PengeluaranResult :=
  let p := grid.foldl (pengeluaranStep d) (some 0, [])
  ⟨p.1, p.2⟩

/-- Per-row amount contributed to `totalPengeluaran` (0 when the row does
not match the day, has no description, or has no amount). -/
def pengRowAmount (d : Nat) (r : Row) : JSNum :=
  if pengDayMatch d (cellAt r 0) && ((cellAt r 2).truthy && (strTrim (cellAt r 2).toStr != ""))
      && ((cellAt r 11).truthy && (strTrim (cellAt r 11).toStr != "")) then
    parseFloatJS (stripNonNum (cellAt r 11).toStr)
  else some 0

/-- Per-row unpriced-expense item: the trimmed description, for a
matching row with a description but no amount. -/
def pengRowItem (d : Nat) (r : Row) : Option String :=
  if pengDayMatch d (cellAt r 0) && ((cellAt r 2).truthy && (strTrim (cellAt r 2).toStr != ""))
      && !((cellAt r 11).truthy && (strTrim (cellAt r 11).toStr != "")) then
    some (strTrim (cellAt r 2).toStr)
  else none

/-! ### Fetch layer and per-table error recovery
(`try { ... await sheetManager.getSheetData ... } catch { return default }`
in each of the three table readers).  A fetch either raises a transport
error (`Except.error ()`) or returns a grid.  For cargo/express the second
fetch's range depends on the `endRow` computed from the first, so it is
modelled as a function of `endRow`. -/

/-- The zeroed cargo aggregate returned from the `catch` branch. -/
def cargoDefault : CargoResult :=
  { totalAWB := 0, totalAWBOnline := "TBD", totalTonase := some 0,
    totalTonaseOnline := some 0, totalTunai := some 0, totalTfMandiri := some 0,
    totalTfBca := some 0, totalDfod := some 0, totalPacking := some 0 }

/-- The zeroed express aggregate returned from the `catch` branch. -/
def expressDefault : ExpressResult :=
  { totalAWBExpress := 0, totalTunaiExpress := some 0, totalTfMandiriExpress := some 0,
    totalTfBcaExpress := some 0, totalPackingExpress := some 0 }

/-- The zeroed expense aggregate returned from the `catch` branch. -/
def pengeluaranDefault : PengeluaranResult :=
  { totalPengeluaran := some 0, itemsWithoutPrice := [] }

/-- `getCargoData` with its fetches and `try`/`catch`: `search` is the
`B13:B300` fetch, `fetch endRow` the `A13:R<endRow>` fetch. -/
def getCargoDataE (search : Except Unit (List Row)) (fetch : Nat → Except Unit (List Row))
    (d : Nat) : CargoResult :=
  match search with
  | .error _ => cargoDefault
  | .ok sd =>
    match fetch (findEndRow sd 300) with
    | .error _ => cargoDefault
    | .ok grid => getCargoData grid d

/-- `getExpressData` with its own fetches and `try`/`catch`. -/
def getExpressDataE (search : Except Unit (List Row)) (fetch : Nat → Except Unit (List Row))
    (d : Nat) : ExpressResult :=
  match search with
  | .error _ => expressDefault
  | .ok sd =>
    match fetch (findEndRow sd 300) with
    | .error _ => expressDefault
    | .ok grid => getExpressData grid d

/-- `getPengeluaranData` with its fetch (`B226:S248`) and `try`/`catch`. -/
def getPengeluaranDataE (fetch : Except Unit (List Row)) (d : Nat) : PengeluaranResult :=
  match fetch with
  | .error _ => pengeluaranDefault
  | .ok grid => getPengeluaranData grid d

/-- The three table aggregates assembled by `generateDailyReport`. -/
structure DailyTables where
  cargo : CargoResult
  express : ExpressResult
  pengeluaran : PengeluaranResult
deriving DecidableEq, Repr

/-- `generateDailyReport`'s table section: each table is computed from its
own fetches only. -/
def generateDailyTables (cs : Except Unit (List Row)) (cf : Nat → Except Unit (List Row))
    (es : Except Unit (List Row)) (ef : Nat → Except Unit (List Row))
    (pf : Except Unit (List Row)) (d : Nat) : DailyTables :=
  ⟨getCargoDataE cs cf d, getExpressDataE es ef d, getPengeluaranDataE pf d⟩

/-! ### Range aggregation (`aggregateReports`, `src/unnamed/part_000`).
A daily report read by the reducer carries its date string, the list of
present employees' names (the reducer only uses names and the count) and
the three table aggregates.  The `Set` of unique names is modelled by
deduplicating the accumulated name list at the end; the `toFixed(1)`
display rounding of the average is not modelled (the average is kept as
an exact ratio). -/

structure DailyReport where
  date : String
  attendance : List String
  cargo : CargoResult
  express : ExpressResult
  pengeluaran : PengeluaranResult
deriving DecidableEq, Repr

/-- Cargo section of the range aggregate (`totalAWBOnline` becomes a list
of `"<date>: <ids>"` strings). -/
structure AggCargo where
  totalAWB : Nat
  totalAWBOnline : List String
  totalTonase : JSNum
  totalTonaseOnline : JSNum
  totalTunai : JSNum
  totalTfMandiri : JSNum
  totalTfBca : JSNum
  totalDfod : JSNum
  totalPacking : JSNum
deriving DecidableEq, Repr

/-- Express section of the range aggregate. -/
structure AggExpress where
  totalAWBExpress : Nat
  totalTunaiExpress : JSNum
  totalTfMandiriExpress : JSNum
  totalTfBcaExpress : JSNum
  totalPackingExpress : JSNum
deriving DecidableEq, Repr

/-- Expense section of the range aggregate. -/
structure AggPengeluaran where
  totalPengeluaran : JSNum
  allItemsWithoutPrice : List String
deriving DecidableEq, Repr

/-- Mutable aggregation state built by the `reports.forEach` loop. -/
structure AggState where
  names : List String
  totalAttendanceDays : Nat
  cargo : AggCargo
  express : AggExpress
  pengeluaran : AggPengeluaran
deriving DecidableEq, Repr

/-- Initial aggregation state (all sums 0, all lists empty). -/
def aggInit : AggState :=
  ⟨[], 0, ⟨0, [], some 0, some 0, some 0, some 0, some 0, some 0, some 0⟩,
    ⟨0, some 0, some 0, some 0, some 0⟩, ⟨some 0, []⟩⟩

/-- One iteration of `reports.forEach`: attendance names/day count,
`+= (x || 0)` for every numeric field, and the two exception lists. -/
def aggStep (agg : AggState) (report : DailyReport) : AggState :=
  { names :=
      if report.attendance.length > 0 then agg.names ++ report.attendance else agg.names
    totalAttendanceDays :=
      if report.attendance.length > 0 then
        agg.totalAttendanceDays + report.attendance.length
      else agg.totalAttendanceDays
    cargo :=
      { totalAWB := agg.cargo.totalAWB + report.cargo.totalAWB
        totalAWBOnline :=
          if report.cargo.totalAWBOnline != "" && report.cargo.totalAWBOnline != "TBD" then
            agg.cargo.totalAWBOnline ++ [report.date ++ ": " ++ report.cargo.totalAWBOnline]
          else agg.cargo.totalAWBOnline
        totalTonase := jsAdd agg.cargo.totalTonase (jsOrZero report.cargo.totalTonase)
        totalTonaseOnline :=
          jsAdd agg.cargo.totalTonaseOnline (jsOrZero report.cargo.totalTonaseOnline)
        totalTunai := jsAdd agg.cargo.totalTunai (jsOrZero report.cargo.totalTunai)
        totalTfMandiri := jsAdd agg.cargo.totalTfMandiri (jsOrZero report.cargo.totalTfMandiri)
        totalTfBca := jsAdd agg.cargo.totalTfBca (jsOrZero report.cargo.totalTfBca)
        totalDfod := jsAdd agg.cargo.totalDfod (jsOrZero report.cargo.totalDfod)
        totalPacking := jsAdd agg.cargo.totalPacking (jsOrZero report.cargo.totalPacking) }
    express :=
      { totalAWBExpress := agg.express.totalAWBExpress + report.express.totalAWBExpress
        totalTunaiExpress :=
          jsAdd agg.express.totalTunaiExpress (jsOrZero report.express.totalTunaiExpress)
        totalTfMandiriExpress :=
          jsAdd agg.express.totalTfMandiriExpress (jsOrZero report.express.totalTfMandiriExpress)
        totalTfBcaExpress :=
          jsAdd agg.express.totalTfBcaExpress (jsOrZero report.express.totalTfBcaExpress)
        totalPackingExpress :=
          jsAdd agg.express.totalPackingExpress (jsOrZero report.express.totalPackingExpress) }
    pengeluaran :=
      { totalPengeluaran :=
          jsAdd agg.pengeluaran.totalPengeluaran (jsOrZero report.pengeluaran.totalPengeluaran)
        allItemsWithoutPrice :=
          if report.pengeluaran.itemsWithoutPrice.length > 0 then
            agg.pengeluaran.allItemsWithoutPrice ++
              [report.date ++ ": " ++ String.intercalate ", " report.pengeluaran.itemsWithoutPrice]
          else agg.pengeluaran.allItemsWithoutPrice } }

/-- The returned range aggregate after the final post-processing. -/
structure AggregatedOut where
  totalUniqueEmployees : Nat
  totalAttendanceDays : Nat
  averageAttendancePerDay : ℚ
  cargo : AggCargo
  express : AggExpress
  pengeluaran : AggPengeluaran
deriving DecidableEq, Repr

/-- `aggregateReports`: fold the per-day loop, then replace the name set
by its size, compute the average, and substitute the online-identifier
placeholder when no day had online identifiers. -/
def aggregateReports (reports : List DailyReport) : AggregatedOut :=
  let st := reports.foldl aggStep aggInit
  { totalUniqueEmployees := st.names.dedup.length
    totalAttendanceDays := st.totalAttendanceDays
    averageAttendancePerDay :=
      if reports.length > 0 then mkRat st.totalAttendanceDays reports.length else 0
    cargo :=
      { st.cargo with
        totalAWBOnline :=
          if st.cargo.totalAWBOnline.length > 0 then st.cargo.totalAWBOnline
          else ["No online AWBs found"] }
    express := st.express
    pengeluaran := st.pengeluaran }

/-! ### Spec-side definitions used only to compare the code against the
spec's wording. -/

/-- Modelled from the spec (§4.1): a cell is non-`Empty` iff it is
present and not whitespace-only. -/
def specNonEmptyCell (c : Cell) : Bool :=
  match c with
  | .absent => false
  | .str s => strTrim s != ""
  | .num _ => true

/-- Modelled from the spec (§4.4, courier table): the number of
target-day segment rows without `'total'` in any column that have at
least one non-`Empty` payment field among the four payment columns. -/
def specNonEmptyPaymentCount (grid : List Row) (d : Nat) : Nat :=
  (((collectSeg 0 (padDayStr d) 0 false grid).map (·.2)).filter
    (fun r => !rowHasTotal r &&
      (specNonEmptyCell (cellAt r 7) || specNonEmptyCell (cellAt r 9) ||
        specNonEmptyCell (cellAt r 11) || specNonEmptyCell (cellAt r 13)))).length

/-- The filtered target-day express segment the code's totals range over:
segment rows without `'total'` anywhere and with a truthy payment cell. -/
def expressSegKept (grid : List Row) (d : Nat) : List Row :=
  ((collectSeg 0 (padDayStr d) 0 false grid).map (·.2)).filter expressKept

/-! ### Concrete grids used for scenario checks -/

/-- Cargo grid: one row for day 05 with a regular identifier, weight
`"2.5"` and a cash cell `"Rp"` whose stripped text parses to `NaN`. -/
def gridCargoNaN : List Row :=
  [[.absent, .str "05", .absent, .str "1234567890", .absent, .absent, .absent,
    .str "2.5", .str "Rp"]]

/-- Grid with a single row labelled day 05 (date column 1). -/
def gridDay05 : List Row := [[.absent, .str "05"]]

/-- Cargo grid in which day 05 appears, is closed by day 06 and appears
again (each occurrence with a continuation row). -/
def gridReopen : List Row :=
  [[.absent, .str "05"], [.absent], [.absent, .str "06"], [.absent],
    [.absent, .str "05"], [.absent]]

/-- A cargo row (used against `cargoStep`): identifier `"Shopee-882"`,
weight `"4"`. -/
def rowShopee : Row :=
  [.absent, .absent, .absent, .str "Shopee-882", .absent, .absent, .absent, .str "4"]

/-- A cargo row whose identifier is the summary marker `"TOTAL"`. -/
def rowTotal : Row := [.absent, .absent, .absent, .str "TOTAL"]

/-- Express grid: one day-05 row whose only payment cell (offset 7) is
the whitespace-only string `" "`. -/
def gridWsPayment : List Row :=
  [[.str "05", .absent, .absent, .absent, .absent, .absent, .absent, .str " "]]

/-- Express grid: one day-05 row whose only payment cell (offset 7) is
the number `0`. -/
def gridZeroPayment : List Row :=
  [[.str "05", .absent, .absent, .absent, .absent, .absent, .absent, .num 0]]

/-- Search column rows where the `PENGELUARAN` marker sits at index 1. -/
def gridMarker : List Row :=
  [[.str "x"], [.str "Pengeluaran Bulanan"], [.str "y"]]

/-- Expense grid with the spec's Scenario C row
`{date: "5", desc: "fuel", amount: ""}`. -/
def gridFuel : List Row :=
  [[.str "5", .absent, .str "fuel", .absent, .absent, .absent, .absent, .absent,
    .absent, .absent, .absent, .str ""]]

/-- Cargo grid whose block is labelled with the unpadded string `"5"`
and contains a regular-identifier continuation row. -/
def gridUnpadded : List Row :=
  [[.absent, .str "5"],
    [.absent, .absent, .absent, .str "1234567890", .absent, .absent, .absent, .str "2"]]

/-- Cargo grid whose block label is `" 05"` (surrounding whitespace). -/
def gridWsLabel : List Row := [[.absent, .str " 05"], [.absent]]

/-- Cargo grid whose block label is the number `5`. -/
def gridNumLabel : List Row := [[.absent, .num 5], [.absent]]

/-- Express grid whose block label is the unpadded string `"5"`, with a
payment cell. -/
def gridUnpaddedExpress : List Row :=
  [[.str "5", .absent, .absent, .absent, .absent, .absent, .absent, .str "100"]]

/-- A daily report whose cargo cash total is `NaN` (all other numeric
fields finite). -/
def reportNaN : DailyReport :=
  { date := "2025-08-05"
    attendance := []
    cargo :=
      { totalAWB := 0, totalAWBOnline := "TBD", totalTonase := some 0,
        totalTonaseOnline := some 0, totalTunai := none, totalTfMandiri := some 0,
        totalTfBca := some 0, totalDfod := some 0, totalPacking := some 0 }
    express :=
      { totalAWBExpress := 0, totalTunaiExpress := some 0,
        totalTfMandiriExpress := some 0, totalTfBcaExpress := some 0,
        totalPackingExpress := some 0 }
    pengeluaran := { totalPengeluaran := some 0, itemsWithoutPrice := [] } }


/-! ### Helper lemmas -/

/-- `ratAdd` agrees with rational addition. -/
theorem ratAdd_eq (a b : ℚ) : ratAdd a b = a + b := (Rat.add_def' a b).symm

/-- Adding a finite `0` on the right is the identity (also on `NaN`). -/
theorem jsAdd_zero_right (x : JSNum) : jsAdd x (some 0) = x := by
  cases x with
  | none => rfl
  | some a => simp [jsAdd, ratAdd_eq]

/-- Adding a finite `0` on the left is the identity (also on `NaN`). -/
theorem jsAdd_zero_left (x : JSNum) : jsAdd (some 0) x = x := by
  cases x with
  | none => rfl
  | some a => simp [jsAdd, ratAdd_eq]

/-- Cons equation of the splitter in append form. -/
theorem collectSeg_cons (idx : Nat) (t : String) (n : Nat) (st : Bool) (r : Row)
    (rs : List Row) :
    collectSeg idx t n st (r :: rs) =
      (if segStep t st (cellAt r idx) then [(n, r)] else []) ++
        collectSeg idx t (n + 1) (segStep t st (cellAt r idx)) rs := by
  rw [collectSeg]; split <;> simp_all

/-- Indices collected from offset `n` are at least `n`. -/
theorem collectSeg_mem_fst_ge (idx : Nat) (t : String) :
    ∀ (rows : List Row) (n : Nat) (st : Bool) (p : Nat × Row),
      p ∈ collectSeg idx t n st rows → n ≤ p.1 := by
  intro rows
  induction rows with
  | nil => intro n st p h; simp [collectSeg] at h
  | cons r rs ih =>
    intro n st p h
    rw [collectSeg_cons] at h
    rcases List.mem_append.mp h with h1 | h1
    · split at h1
      · simp at h1; subst h1; exact Nat.le_refl n
      · simp at h1
    · exact Nat.le_of_succ_le (ih (n + 1) _ p h1)

/-- Two different targets cannot both be in the open state after one step. -/
theorem segStep_not_both (t1 t2 : String) (hne : t1 ≠ t2) (st1 st2 : Bool) (c : Cell)
    (hinv : ¬(st1 = true ∧ st2 = true)) :
    ¬(segStep t1 st1 c = true ∧ segStep t2 st2 c = true) := by
  rintro ⟨ha, hb⟩
  by_cases hl : labelish c = true
  · simp only [segStep, hl, if_true] at ha hb
    cases c with
    | absent => simp [cellSEqStr] at ha
    | num m => simp [cellSEqStr] at ha
    | str s =>
      simp only [cellSEqStr, beq_iff_eq] at ha hb
      exact hne (ha.symm.trans hb)
  · simp only [segStep, hl, if_false] at ha hb
    exact hinv ⟨ha, hb⟩

/-- Core disjointness induction: with states that are never both open,
no index is collected for both of two distinct targets. -/
theorem collectSeg_disjoint_aux (idx : Nat) (t1 t2 : String) (hne : t1 ≠ t2) :
    ∀ (rows : List Row) (n : Nat) (st1 st2 : Bool),
      ¬(st1 = true ∧ st2 = true) →
      ∀ (i : Nat), i ∈ (collectSeg idx t1 n st1 rows).map (·.1) →
        i ∈ (collectSeg idx t2 n st2 rows).map (·.1) → False := by
  intro rows
  induction rows with
  | nil => intro n st1 st2 hinv i h1 h2; simp [collectSeg] at h1
  | cons r rs ih =>
    intro n st1 st2 hinv i h1 h2
    have hinv' := segStep_not_both t1 t2 hne st1 st2 (cellAt r idx) hinv
    rw [collectSeg_cons] at h1 h2
    simp only [List.map_append, List.mem_append] at h1 h2
    have tail_ge : ∀ (t : String) (st : Bool),
        i ∈ (collectSeg idx t (n + 1) st rs).map (·.1) → n + 1 ≤ i := by
      intro t st hm
      rcases List.mem_map.mp hm with ⟨p, hp, hpe⟩
      exact hpe ▸ collectSeg_mem_fst_ge idx t rs (n + 1) st p hp
    rcases h1 with h1 | h1 <;> rcases h2 with h2 | h2
    · split at h1 <;> split at h2 <;> simp_all
    · split at h1
      · simp at h1
        subst h1
        exact absurd (tail_ge t2 _ h2) (by omega)
      · simp at h1
    · split at h2
      · simp at h2
        subst h2
        exact absurd (tail_ge t1 _ h1) (by omega)
      · simp at h2
    · exact ih (n + 1) _ _ hinv' i h1 h2

/-- A row whose date cell equals the (non-blank) target label is always
collected, wherever it occurs. -/
theorem collectSeg_reopen_aux (idx : Nat) (t : String)
    (hlab : labelish (Cell.str t) = true) :
    ∀ (rows : List Row) (n : Nat) (st : Bool) (i : Nat) (r : Row),
      rows[i]? = some r → cellAt r idx = Cell.str t →
      (n + i, r) ∈ collectSeg idx t n st rows := by
  intro rows
  induction rows with
  | nil => intro n st i r h; simp at h
  | cons a as ih =>
    intro n st i r hget hcell
    cases i with
    | zero =>
      rw [List.getElem?_cons_zero, Option.some.injEq] at hget
      subst hget
      have hstep : segStep t st (cellAt a idx) = true := by
        rw [hcell]; simp [segStep, hlab, cellSEqStr]
      rw [collectSeg_cons, hstep]
      simp
    | succ j =>
      rw [List.getElem?_cons_succ] at hget
      have hmem := ih (n + 1) (segStep t st (cellAt a idx)) j r hget hcell
      have harith : n + (j + 1) = (n + 1) + j := by omega
      rw [collectSeg_cons]
      refine List.mem_append.mpr (Or.inr ?_)
      rw [harith]
      exact hmem

/-- Scan result when the first marker sits at index `i`. -/
theorem findEndRowAux_marker (fb : Nat) :
    ∀ (rows : List Row) (n i : Nat) (r : Row),
      rows[i]? = some r → hasMarkerRow r = true →
      ((rows.take i).all fun r2 => !hasMarkerRow r2) = true →
      findEndRowAux fb n rows = 13 + (n + i) - 1 := by
  intro rows
  induction rows with
  | nil => intro n i r h; simp at h
  | cons a as ih =>
    intro n i r hget hm htake
    cases i with
    | zero =>
      rw [List.getElem?_cons_zero, Option.some.injEq] at hget
      subst hget
      rw [findEndRowAux, if_pos hm]
      simp
    | succ j =>
      rw [List.getElem?_cons_succ] at hget
      rw [List.take_succ_cons, List.all_cons, Bool.and_eq_true] at htake
      obtain ⟨ha, htl⟩ := htake
      rw [findEndRowAux, if_neg (by simp_all)]
      rw [ih (n + 1) j r hget hm htl]
      omega

/-- Scan result when no row carries the marker. -/
theorem findEndRowAux_nomarker (fb : Nat) :
    ∀ (rows : List Row) (n : Nat),
      (rows.all fun r2 => !hasMarkerRow r2) = true → findEndRowAux fb n rows = fb := by
  intro rows
  induction rows with
  | nil => intro n h; rw [findEndRowAux]
  | cons a as ih =>
    intro n h
    rw [List.all_cons, Bool.and_eq_true] at h
    rw [findEndRowAux, if_neg (by simp_all)]
    exact ih (n + 1) h.2

/-! ### Claim theorems -/

/-- Claim C1 (evaluation at the failing input): in `getCargoData` for
day 5, the truthy cash cell `"Rp"` strips to `""` and parses to `NaN`,
and the `NaN` is added to the cash total unguarded — the returned
`totalTunai` is `NaN` even though the row is otherwise processed
(counted as a regular parcel, its weight summed). -/
theorem cargo_nan_totalTunai :
    (getCargoData gridCargoNaN 5).totalTunai = none ∧
      (getCargoData gridCargoNaN 5).totalAWB = 1 ∧
      (getCargoData gridCargoNaN 5).totalTonase = some (mkRat 5 2) := by
  decide

/-- Claim C2: an empty (non-labelish) date cell leaves the active-day
state unchanged, and for any grid and any two distinct target day
strings the row-index sets collected by the day-segment splitter are
disjoint. -/
theorem segment_splitter_disjoint :
    (∀ (t : String) (st : Bool) (c : Cell), labelish c = false → segStep t st c = st)
    ∧ (∀ (idx : Nat) (t1 t2 : String), t1 ≠ t2 → ∀ (grid : List Row) (i : Nat),
        i ∈ segIndices idx t1 grid → i ∉ segIndices idx t2 grid) := by
  constructor
  · intro t st c h
    simp [segStep, h]
  · intro idx t1 t2 hne grid i h1 h2
    exact collectSeg_disjoint_aux idx t1 t2 hne grid 0 false false (by simp) i h1 h2

/-- Witness for C2 at concrete inputs: an absent date cell keeps the
state open, and index 0 (collected for day `"05"` in `gridDay05`) is not
collected for day `"06"`. -/
theorem segment_splitter_disjoint_w :
    segStep "05" true Cell.absent = true ∧ 0 ∉ segIndices 1 "06" gridDay05 :=
  ⟨segment_splitter_disjoint.1 "05" true Cell.absent (by decide),
    segment_splitter_disjoint.2 1 "05" "06" (by decide) gridDay05 0 (by decide)⟩

/-- Claim C5: scanning the label column from the start row (row 13), the
locator returns the row number immediately before the first row whose
label case-insensitively contains `PENGELUARAN`; when no scanned row
contains the marker it returns the fallback bound. -/
theorem findEndRow_locates (rows : List Row) (fb i : Nat) (r : Row) :
    (rows[i]? = some r → hasMarkerRow r = true →
      ((rows.take i).all fun r2 => !hasMarkerRow r2) = true →
      findEndRow rows fb = 13 + i - 1)
    ∧ ((rows.all fun r2 => !hasMarkerRow r2) = true → findEndRow rows fb = fb) := by
  constructor
  · intro h1 h2 h3
    have h := findEndRowAux_marker fb rows 0 i r h1 h2 h3
    simpa [findEndRow] using h
  · intro h
    exact findEndRowAux_nomarker fb rows 0 h

/-- Witness for C5: with the marker `"Pengeluaran Bulanan"` at index 1,
the bound is row 13 (= 13 + 1 - 1); on an empty window the fallback 300
is returned. -/
theorem findEndRow_locates_w :
    findEndRow gridMarker 300 = 13 ∧ findEndRow ([] : List Row) 300 = 300 :=
  ⟨(findEndRow_locates gridMarker 300 1 [Cell.str "Pengeluaran Bulanan"]).1
      (by decide) (by decide) (by decide),
    (findEndRow_locates [] 300 0 []).2 (by decide)⟩

/-- Claim C8: a transport failure in either fetch of a table reader is
caught inside that reader and yields the documented zeroed default for
that table (`totalAWBOnline = "TBD"`, `itemsWithoutPrice = []`, every
numeric field 0), and each table of the daily report depends only on its
own fetches, so one table's failure leaves the others unchanged. -/
theorem table_failure_recovery :
    (∀ f d, getCargoDataE (Except.error ()) f d = cargoDefault)
    ∧ (∀ sd d, getCargoDataE (Except.ok sd) (fun _ => Except.error ()) d = cargoDefault)
    ∧ (∀ f d, getExpressDataE (Except.error ()) f d = expressDefault)
    ∧ (∀ sd d, getExpressDataE (Except.ok sd) (fun _ => Except.error ()) d = expressDefault)
    ∧ (∀ d, getPengeluaranDataE (Except.error ()) d = pengeluaranDefault)
    ∧ cargoDefault =
        { totalAWB := 0, totalAWBOnline := "TBD", totalTonase := some 0,
          totalTonaseOnline := some 0, totalTunai := some 0, totalTfMandiri := some 0,
          totalTfBca := some 0, totalDfod := some 0, totalPacking := some 0 }
    ∧ expressDefault =
        { totalAWBExpress := 0, totalTunaiExpress := some 0, totalTfMandiriExpress := some 0,
          totalTfBcaExpress := some 0, totalPackingExpress := some 0 }
    ∧ pengeluaranDefault = { totalPengeluaran := some 0, itemsWithoutPrice := [] }
    ∧ (∀ cs cf cs2 cf2 es ef pf d,
        (generateDailyTables cs cf es ef pf d).express =
            (generateDailyTables cs2 cf2 es ef pf d).express
          ∧ (generateDailyTables cs cf es ef pf d).pengeluaran =
            (generateDailyTables cs2 cf2 es ef pf d).pengeluaran)
    ∧ (∀ cs cf es ef es2 ef2 pf d,
        (generateDailyTables cs cf es ef pf d).cargo =
            (generateDailyTables cs cf es2 ef2 pf d).cargo
          ∧ (generateDailyTables cs cf es ef pf d).pengeluaran =
            (generateDailyTables cs cf es2 ef2 pf d).pengeluaran)
    ∧ (∀ cs cf es ef pf pf2 d,
        (generateDailyTables cs cf es ef pf d).cargo =
            (generateDailyTables cs cf es ef pf2 d).cargo
          ∧ (generateDailyTables cs cf es ef pf d).express =
            (generateDailyTables cs cf es ef pf2 d).express) :=
  ⟨fun _ _ => rfl, fun _ _ => rfl, fun _ _ => rfl, fun _ _ => rfl, fun _ => rfl,
    rfl, rfl, rfl,
    fun _ _ _ _ _ _ _ _ => ⟨rfl, rfl⟩,
    fun _ _ _ _ _ _ _ _ => ⟨rfl, rfl⟩,
    fun _ _ _ _ _ _ _ => ⟨rfl, rfl⟩⟩

/-- Claim C9 counterexample: in `gridReopen`, day `"05"` appears (rows
0–1), is closed by day `"06"` (rows 2–3), and appears again (rows 4–5);
the splitter collects `[0, 1, 4, 5]`, so the second occurrence's rows
are in the segment, not dropped. -/
theorem reopen_counterexample :
    segIndices 1 "05" gridReopen = [0, 1, 4, 5] ∧ 4 ∈ segIndices 1 "05" gridReopen := by
  decide

/-- Claim C9 amended: a later re-occurrence of the target day's label
reopens the segment — every row whose date cell strictly equals the
(non-blank) target label is collected, wherever it occurs; only the
intervening rows labelled with other days are excluded. -/
theorem reopen_membership (idx : Nat) (t : String) (grid : List Row) (i : Nat) (r : Row)
    (hlab : labelish (Cell.str t) = true) (hget : grid[i]? = some r)
    (hcell : cellAt r idx = Cell.str t) : i ∈ segIndices idx t grid := by
  have h := collectSeg_reopen_aux idx t hlab grid 0 false i r hget hcell
  have h2 := List.mem_map_of_mem (·.1) h
  simpa [segIndices] using h2

/-- Witness for the amended C9: row 4 of `gridReopen` (the re-occurrence
of the `"05"` label) is in the collected segment. -/
theorem reopen_membership_w :
    labelish (Cell.str "05") = true ∧ 4 ∈ segIndices 1 "05" gridReopen :=
  ⟨by decide,
    reopen_membership 1 "05" gridReopen 4 [Cell.absent, Cell.str "05"]
      (by decide) (by decide) (by decide)⟩

/-- Claim C10: a labelled row opens the segment iff its date cell is
strictly string-equal to the target day; the padded target for day 5 is
`"05"`; an unpadded `"5"` label, a whitespace-padded `" 05"` label and
the numeric label `5` all close the segment, so their blocks contribute
nothing to the cargo/express totals; the expense matcher, by contrast,
accepts both the unpadded and the padded day string. -/
theorem strict_padded_day_match :
    (∀ (t : String) (st : Bool) (c : Cell), labelish c = true →
      (segStep t st c = true ↔ c = Cell.str t))
    ∧ padDayStr 5 = "05"
    ∧ segIndices 1 (padDayStr 5) gridUnpadded = []
    ∧ (getCargoData gridUnpadded 5).totalAWB = 0
    ∧ (getCargoData gridUnpadded 5).totalTonase = some 0
    ∧ segIndices 1 (padDayStr 5) gridWsLabel = []
    ∧ segIndices 1 (padDayStr 5) gridNumLabel = []
    ∧ (getExpressData gridUnpaddedExpress 5).totalAWBExpress = 0
    ∧ (getExpressData gridUnpaddedExpress 5).totalTunaiExpress = some 0
    ∧ pengDayMatch 5 (Cell.str "5") = true
    ∧ pengDayMatch 5 (Cell.str "05") = true := by
  refine ⟨?_, by decide, by decide, by decide, by decide, by decide, by decide,
    by decide, by decide, by decide, by decide⟩
  intro t st c hl
  cases c with
  | absent => simp [labelish, Cell.truthy] at hl
  | num m => simp [segStep, hl, cellSEqStr]
  | str s => simp [segStep, hl, cellSEqStr]

/-- Witness for C10: the padded label `"05"` itself opens the segment. -/
theorem strict_padded_day_match_w :
    labelish (Cell.str "05") = true ∧
      (segStep "05" false (Cell.str "05") = true ↔ Cell.str "05" = Cell.str "05") :=
  ⟨by decide, strict_padded_day_match.1 "05" false (Cell.str "05") (by decide)⟩

/-- Unrolling the expense fold: the total is a row-local sum and the
unpriced list a row-local concatenation. -/
theorem pengeluaran_fold_aux (d : Nat) :
    ∀ (rows : List Row) (a : JSNum) (its : List String),
      rows.foldl (pengeluaranStep d) (a, its) =
        (rows.foldl (fun x r => jsAdd x (pengRowAmount d r)) a,
          its ++ rows.filterMap (pengRowItem d)) := by
  intro rows
  induction rows with
  | nil => intro a its; simp
  | cons r rs ih =>
    intro a its
    rw [List.foldl_cons, List.foldl_cons, List.filterMap_cons]
    by_cases hm : pengDayMatch d (cellAt r 0) = true
    · by_cases hd : ((cellAt r 2).truthy && (strTrim (cellAt r 2).toStr != "")) = true
      · by_cases ha : ((cellAt r 11).truthy && (strTrim (cellAt r 11).toStr != "")) = true
        · have hstep : pengeluaranStep d (a, its) r =
              (jsAdd a (parseFloatJS (stripNonNum (cellAt r 11).toStr)), its) := by
            simp [pengeluaranStep, hm, hd, ha]
          have hamt : pengRowAmount d r = parseFloatJS (stripNonNum (cellAt r 11).toStr) := by
            simp [pengRowAmount, hm, hd, ha]
          have hitem : pengRowItem d r = none := by
            simp [pengRowItem, hm, hd, ha]
          rw [hstep, ih, hamt, hitem]
        · have hstep : pengeluaranStep d (a, its) r =
              (a, its ++ [strTrim (cellAt r 2).toStr]) := by
            simp [pengeluaranStep, hm, hd, ha]
          have hamt : pengRowAmount d r = some 0 := by
            simp [pengRowAmount, hm, hd, ha]
          have hitem : pengRowItem d r = some (strTrim (cellAt r 2).toStr) := by
            simp [pengRowItem, hm, hd, ha]
          rw [hstep, ih, hamt, hitem, jsAdd_zero_right]
          simp
      · have hstep : pengeluaranStep d (a, its) r = (a, its) := by
          simp [pengeluaranStep, hm, hd]
        have hamt : pengRowAmount d r = some 0 := by
          simp [pengRowAmount, hm, hd]
        have hitem : pengRowItem d r = none := by
          simp [pengRowItem, hm, hd]
        rw [hstep, ih, hamt, hitem, jsAdd_zero_right]
    · have hstep : pengeluaranStep d (a, its) r = (a, its) := by
        simp [pengeluaranStep, hm]
      have hamt : pengRowAmount d r = some 0 := by
        simp [pengRowAmount, hm]
      have hitem : pengRowItem d r = none := by
        simp [pengRowItem, hm]
      rw [hstep, ih, hamt, hitem, jsAdd_zero_right]

/-- The express collection loop equals the plain splitter followed by
the row-local keep filter. -/
theorem expressCollect_eq_filter (t : String) :
    ∀ (rows : List Row) (n : Nat) (st : Bool),
      expressCollect t st rows =
        ((collectSeg 0 t n st rows).map (·.2)).filter expressKept := by
  intro rows
  induction rows with
  | nil => intro n st; simp [expressCollect, collectSeg]
  | cons r rs ih =>
    intro n st
    rw [expressCollect, collectSeg_cons]
    by_cases hst : segStep t st (cellAt r 0) = true
    · rw [if_pos hst, if_pos hst]
      by_cases htot : rowHasTotal r = true
      · have hk : expressKept r = false := by simp [expressKept, htot]
        simp [htot, hk, ih (n + 1) (segStep t st (cellAt r 0))]
      · by_cases hpay : truthy4 r = true
        · have hk : expressKept r = true := by simp [expressKept, htot, hpay]
          simp [htot, hpay, hk, ih (n + 1) (segStep t st (cellAt r 0))]
        · have hk : expressKept r = false := by simp [expressKept, htot, hpay]
          simp [htot, hpay, hk, ih (n + 1) (segStep t st (cellAt r 0))]
    · rw [if_neg hst, if_neg hst]
      simp [ih (n + 1) (segStep t st (cellAt r 0))]

/-- The express totals fold computed field by field. -/
theorem expressFold_proj :
    ∀ (rows : List Row) (acc : ExpressAcc),
      rows.foldl expressAccStep acc =
        ⟨rows.foldl (fun x r => jsAdd x (numOr (cellAt r 7))) acc.tunai,
          rows.foldl (fun x r => jsAdd x (numOr (cellAt r 9))) acc.mandiri,
          rows.foldl (fun x r => jsAdd x (numOr (cellAt r 11))) acc.bca,
          rows.foldl (fun x r => jsAdd x (numOr (cellAt r 13))) acc.packing⟩ := by
  intro rows
  induction rows with
  | nil => intro acc; rfl
  | cons r rs ih =>
    intro acc
    rw [List.foldl_cons, ih]
    rfl

/-- Claim C3: for a cargo row whose identifier passes the guard (truthy,
non-blank after trim, not the literal text `total`), exactly one of
three cases holds — online (marketplace substring; its weight goes to
the online total only), regular (a run of ≥ 10 digits; its weight goes
to the regular total only and the regular count increments), or ignored
(neither weight total nor the count changes).  The weight is never added
to both totals. -/
theorem cargo_row_classification :
    (∀ (acc : CargoAcc) (r : Row), cargoGuard (cellAt r 3) = false → cargoStep acc r = acc)
    ∧ ∀ (acc : CargoAcc) (r : Row), cargoGuard (cellAt r 3) = true →
      (isOnlineAWB (cellAt r 3).toStr = true
        ∧ (cargoStep acc r).totalOnlineKg = jsAdd acc.totalOnlineKg (numOr (cellAt r 7))
        ∧ (cargoStep acc r).totalKg = acc.totalKg
        ∧ (cargoStep acc r).totalAWB = acc.totalAWB)
      ∨ (isOnlineAWB (cellAt r 3).toStr = false ∧ isRegularAWB (cellAt r 3).toStr = true
        ∧ (cargoStep acc r).totalKg = jsAdd acc.totalKg (numOr (cellAt r 7))
        ∧ (cargoStep acc r).totalOnlineKg = acc.totalOnlineKg
        ∧ (cargoStep acc r).totalAWB = acc.totalAWB + 1)
      ∨ (isOnlineAWB (cellAt r 3).toStr = false ∧ isRegularAWB (cellAt r 3).toStr = false
        ∧ (cargoStep acc r).totalKg = acc.totalKg
        ∧ (cargoStep acc r).totalOnlineKg = acc.totalOnlineKg
        ∧ (cargoStep acc r).totalAWB = acc.totalAWB) := by
  constructor
  · intro acc r h
    simp [cargoStep, h]
  · intro acc r h
    by_cases h1 : isOnlineAWB (cellAt r 3).toStr = true
    · exact Or.inl ⟨h1, by simp [cargoStep, h, h1]⟩
    · have h1f : isOnlineAWB (cellAt r 3).toStr = false := by simpa using h1
      by_cases h2 : isRegularAWB (cellAt r 3).toStr = true
      · refine Or.inr (Or.inl ⟨h1f, h2, ?_, ?_, ?_⟩) <;> simp [cargoStep, h, h1f, h2]
      · have h2f : isRegularAWB (cellAt r 3).toStr = false := by simpa using h2
        refine Or.inr (Or.inr ⟨h1f, h2f, ?_, ?_, ?_⟩) <;> simp [cargoStep, h, h1f, h2f]

/-- Witness for C3 at the concrete row `rowShopee` (identifier
`"Shopee-882"`, weight `"4"`) against the initial totals. -/
theorem cargo_row_classification_w :
    (cargoGuard (cellAt rowTotal 3) = false ∧ cargoStep cargoAccInit rowTotal = cargoAccInit)
    ∧ cargoGuard (cellAt rowShopee 3) = true ∧
      ((isOnlineAWB (cellAt rowShopee 3).toStr = true
        ∧ (cargoStep cargoAccInit rowShopee).totalOnlineKg =
            jsAdd cargoAccInit.totalOnlineKg (numOr (cellAt rowShopee 7))
        ∧ (cargoStep cargoAccInit rowShopee).totalKg = cargoAccInit.totalKg
        ∧ (cargoStep cargoAccInit rowShopee).totalAWB = cargoAccInit.totalAWB)
      ∨ (isOnlineAWB (cellAt rowShopee 3).toStr = false
        ∧ isRegularAWB (cellAt rowShopee 3).toStr = true
        ∧ (cargoStep cargoAccInit rowShopee).totalKg =
            jsAdd cargoAccInit.totalKg (numOr (cellAt rowShopee 7))
        ∧ (cargoStep cargoAccInit rowShopee).totalOnlineKg = cargoAccInit.totalOnlineKg
        ∧ (cargoStep cargoAccInit rowShopee).totalAWB = cargoAccInit.totalAWB + 1)
      ∨ (isOnlineAWB (cellAt rowShopee 3).toStr = false
        ∧ isRegularAWB (cellAt rowShopee 3).toStr = false
        ∧ (cargoStep cargoAccInit rowShopee).totalKg = cargoAccInit.totalKg
        ∧ (cargoStep cargoAccInit rowShopee).totalOnlineKg = cargoAccInit.totalOnlineKg
        ∧ (cargoStep cargoAccInit rowShopee).totalAWB = cargoAccInit.totalAWB)) :=
  ⟨⟨by decide, cargo_row_classification.1 cargoAccInit rowTotal (by decide)⟩,
    by decide, cargo_row_classification.2 cargoAccInit rowShopee (by decide)⟩

/-- Claim C6: expense rows are matched by direct equality against the
unpadded or padded day string and contribute row-locally (no
carry-forward): the total is the sum of the per-row amount
contributions and the unpriced list is the concatenation of the per-row
items; in particular, on the Scenario-C grid (`{date: "5", desc: "fuel",
amount: ""}` against day 5, an unpadded-vs-padded match) the result is
total 0 and items `["fuel"]`. -/
theorem pengeluaran_day_matching (grid : List Row) (d : Nat) :
    getPengeluaranData grid d =
        ⟨jsSum (grid.map (pengRowAmount d)), grid.filterMap (pengRowItem d)⟩
      ∧ getPengeluaranData gridFuel 5 = ⟨some 0, ["fuel"]⟩ := by
  constructor
  · have h := pengeluaran_fold_aux d grid (some 0) []
    unfold getPengeluaranData
    rw [h]
    simp [jsSum, List.foldl_map]
  · decide

/-- Claim C4 amended: `totalAWBExpress` equals the number of target-day
segment rows that contain no `total` in any column and have at least one
*truthy* payment cell (JavaScript truthiness, not the spec's
non-`Empty`: a whitespace-only string is truthy, the number 0 is not),
and each payment total is the sum of the coerced payment cells of
exactly those rows (falsy cells contributing 0, truthy unparseable cells
contributing NaN). -/
theorem express_totals (grid : List Row) (d : Nat) :
    getExpressData grid d =
      { totalAWBExpress := (expressSegKept grid d).length
        totalTunaiExpress := jsSum ((expressSegKept grid d).map fun r => numOr (cellAt r 7))
        totalTfMandiriExpress :=
          jsSum ((expressSegKept grid d).map fun r => numOr (cellAt r 9))
        totalTfBcaExpress := jsSum ((expressSegKept grid d).map fun r => numOr (cellAt r 11))
        totalPackingExpress :=
          jsSum ((expressSegKept grid d).map fun r => numOr (cellAt r 13)) } := by
  simp only [getExpressData, expressSegKept]
  rw [expressCollect_eq_filter (padDayStr d) grid 0 false, expressFold_proj]
  simp [jsSum, List.foldl_map]

/-- Claim C4 counterexample: in `gridWsPayment` the single day-05 row's
only payment cell is the whitespace-only string `" "` — `Empty` under
the spec's coercion, so the claimed count of rows with a non-empty
payment field is 0, yet the code counts the row by truthiness and
returns `totalAWBExpress = 1` (and adds the cell's `NaN` coercion to the
cash total).  Conversely, in `gridZeroPayment` the only payment cell is
the number `0` — present and non-empty under any reading — yet the code
does not count the row (`0` is falsy). -/
theorem express_count_counterexample :
    (getExpressData gridWsPayment 5).totalAWBExpress = 1
      ∧ specNonEmptyPaymentCount gridWsPayment 5 = 0
      ∧ (getExpressData gridWsPayment 5).totalAWBExpress ≠
          specNonEmptyPaymentCount gridWsPayment 5
      ∧ (getExpressData gridWsPayment 5).totalTunaiExpress = none
      ∧ (getExpressData gridZeroPayment 5).totalAWBExpress = 0
      ∧ specNonEmptyPaymentCount gridZeroPayment 5 = 1
      ∧ (getExpressData gridZeroPayment 5).totalAWBExpress ≠
          specNonEmptyPaymentCount gridZeroPayment 5 := by
  decide

/-- Claim C7 counterexample: aggregating the single report `reportNaN`,
whose cargo cash total is `NaN`, yields 0 for that field (the reducer's
`|| 0` guard), not the report's field value. -/
theorem reducer_nan_counterexample :
    (aggregateReports [reportNaN]).cargo.totalTunai = some 0
      ∧ reportNaN.cargo.totalTunai = none
      ∧ (aggregateReports [reportNaN]).cargo.totalTunai ≠ reportNaN.cargo.totalTunai := by
  decide

/-- Claim C7 amended: the reducer is a per-field sum after normalising
each field with the `|| 0` guard (`jsOrZero`, which maps `NaN` to 0 and
is the identity on finite values): aggregating one report gives
`jsOrZero` of each numeric field — hence exactly the field value
whenever it is finite — and aggregating two reports gives `jsAdd` of the
two normalised fields; the integer counts are summed exactly. -/
theorem reducer_additive (d1 d2 : DailyReport) :
    ((aggregateReports [d1]).cargo.totalAWB = d1.cargo.totalAWB
      ∧ (aggregateReports [d1]).cargo.totalTonase = jsOrZero d1.cargo.totalTonase
      ∧ (aggregateReports [d1]).cargo.totalTonaseOnline = jsOrZero d1.cargo.totalTonaseOnline
      ∧ (aggregateReports [d1]).cargo.totalTunai = jsOrZero d1.cargo.totalTunai
      ∧ (aggregateReports [d1]).cargo.totalTfMandiri = jsOrZero d1.cargo.totalTfMandiri
      ∧ (aggregateReports [d1]).cargo.totalTfBca = jsOrZero d1.cargo.totalTfBca
      ∧ (aggregateReports [d1]).cargo.totalDfod = jsOrZero d1.cargo.totalDfod
      ∧ (aggregateReports [d1]).cargo.totalPacking = jsOrZero d1.cargo.totalPacking
      ∧ (aggregateReports [d1]).express.totalAWBExpress = d1.express.totalAWBExpress
      ∧ (aggregateReports [d1]).express.totalTunaiExpress = jsOrZero d1.express.totalTunaiExpress
      ∧ (aggregateReports [d1]).express.totalTfMandiriExpress =
          jsOrZero d1.express.totalTfMandiriExpress
      ∧ (aggregateReports [d1]).express.totalTfBcaExpress = jsOrZero d1.express.totalTfBcaExpress
      ∧ (aggregateReports [d1]).express.totalPackingExpress =
          jsOrZero d1.express.totalPackingExpress
      ∧ (aggregateReports [d1]).pengeluaran.totalPengeluaran =
          jsOrZero d1.pengeluaran.totalPengeluaran)
    ∧ ((aggregateReports [d1, d2]).cargo.totalAWB = d1.cargo.totalAWB + d2.cargo.totalAWB
      ∧ (aggregateReports [d1, d2]).cargo.totalTonase =
          jsAdd (jsOrZero d1.cargo.totalTonase) (jsOrZero d2.cargo.totalTonase)
      ∧ (aggregateReports [d1, d2]).cargo.totalTonaseOnline =
          jsAdd (jsOrZero d1.cargo.totalTonaseOnline) (jsOrZero d2.cargo.totalTonaseOnline)
      ∧ (aggregateReports [d1, d2]).cargo.totalTunai =
          jsAdd (jsOrZero d1.cargo.totalTunai) (jsOrZero d2.cargo.totalTunai)
      ∧ (aggregateReports [d1, d2]).cargo.totalTfMandiri =
          jsAdd (jsOrZero d1.cargo.totalTfMandiri) (jsOrZero d2.cargo.totalTfMandiri)
      ∧ (aggregateReports [d1, d2]).cargo.totalTfBca =
          jsAdd (jsOrZero d1.cargo.totalTfBca) (jsOrZero d2.cargo.totalTfBca)
      ∧ (aggregateReports [d1, d2]).cargo.totalDfod =
          jsAdd (jsOrZero d1.cargo.totalDfod) (jsOrZero d2.cargo.totalDfod)
      ∧ (aggregateReports [d1, d2]).cargo.totalPacking =
          jsAdd (jsOrZero d1.cargo.totalPacking) (jsOrZero d2.cargo.totalPacking)
      ∧ (aggregateReports [d1, d2]).express.totalAWBExpress =
          d1.express.totalAWBExpress + d2.express.totalAWBExpress
      ∧ (aggregateReports [d1, d2]).express.totalTunaiExpress =
          jsAdd (jsOrZero d1.express.totalTunaiExpress) (jsOrZero d2.express.totalTunaiExpress)
      ∧ (aggregateReports [d1, d2]).express.totalTfMandiriExpress =
          jsAdd (jsOrZero d1.express.totalTfMandiriExpress)
            (jsOrZero d2.express.totalTfMandiriExpress)
      ∧ (aggregateReports [d1, d2]).express.totalTfBcaExpress =
          jsAdd (jsOrZero d1.express.totalTfBcaExpress) (jsOrZero d2.express.totalTfBcaExpress)
      ∧ (aggregateReports [d1, d2]).express.totalPackingExpress =
          jsAdd (jsOrZero d1.express.totalPackingExpress)
            (jsOrZero d2.express.totalPackingExpress)
      ∧ (aggregateReports [d1, d2]).pengeluaran.totalPengeluaran =
          jsAdd (jsOrZero d1.pengeluaran.totalPengeluaran)
            (jsOrZero d2.pengeluaran.totalPengeluaran)) := by
  refine ⟨⟨?_, ?_, ?_, ?_, ?_, ?_, ?_, ?_, ?_, ?_, ?_, ?_, ?_, ?_⟩,
      ⟨?_, ?_, ?_, ?_, ?_, ?_, ?_, ?_, ?_, ?_, ?_, ?_, ?_, ?_⟩⟩ <;>
    simp [aggregateReports, aggStep, aggInit, jsAdd_zero_left]
